import Mathlib

/-!
Shallow embedding of the browser network/crash watchdogs
(`network_watchdog.py`, `crash_watchdog.py`).

Modelling conventions:
* Python `str` is Lean `String`; Python substring tests (`pat in s`) and
  `str.startswith` are decidable infix/initial-segment tests on the
  character lists.
* Python floats (timestamps, element coordinates, viewport fractions) are
  modelled as exact rationals; the constants involved (`0.2`, `0.8`, `0.3`,
  `0.7`) are written as the exact fractions the source multiplies by.
* Python dicts with string keys are association lists; `dict.get(k, d)`
  is a lookup with default; `d[k] = v` replaces in place or appends;
  `del d[k]` removes the key.
* Python truthiness is modelled explicitly where the source relies on it:
  `if encoded_data_length:` is false for both `None` and `0`;
  `if self.end_time:` is false for both `None` and `0.0`;
  `lst[-k:]` with `k = 0` is the whole list.
* Optional values (`None`) are `Option`.
-/

/-- Python `pat in s` (substring containment), on character lists. -/
def strContains (s pat : String) : Bool := decide (pat.data <:+: s.data)

/-- Python `s.startswith(pat)`, on character lists. -/
def strStartsWith (s pat : String) : Bool := decide (pat.data <+: s.data)

/-- Python `s.lower()`, on the character list. -/
def strToLower (s : String) : String := String.mk (s.data.map Char.toLower)

/-- Python `d.get(k, dflt)` for a string-valued dict. -/
def dictGetD (d : List (String × String)) (k dflt : String) : String :=
  match d.find? (fun p => p.1 == k) with
  | some p => p.2
  | none => dflt

/-- Python slicing the last component of `url` split on slashes (the split never returns an empty list). -/
def lastSegment (s : String) : String := ((s.splitOn "/").getLast?).getD ""

/-- Python `lst[-k:]`: the last `k` elements, except that `k = 0` yields the
whole list (`lst[-0:] == lst[0:]`). -/
def pyTail (k : Nat) (l : List α) : List α :=
  if k = 0 then l else l.drop (l.length - k)

/-- One entry of the callFrames list inside the initiator stack. -/
structure CallFrame where
  functionName : String := ""
  url : String := ""
deriving DecidableEq

/-- The stack field of the initiator: absent stack means no call frames. -/
structure InitiatorStack where
  callFrames : List CallFrame := []
deriving DecidableEq

/-- CDP request-initiator metadata (`tracker.initiator`). -/
structure Initiator where
  type : String := ""
  stack : Option InitiatorStack := none
deriving DecidableEq

/-- Element geometry (`tracker.element_position`), coordinates as exact
rationals standing for the floats of the source. -/
structure ElementPos where
  x : ℚ := 0
  y : ℚ := 0
  width : ℚ := 0
  height : ℚ := 0
deriving DecidableEq

/-- The `NetworkRequestTracker` record: one network request with response,
failure and DOM-correlation fields, as initialised by `__init__`. -/
structure NetworkRequestTracker where
  request_id : String
  start_time : ℚ
  url : String
  method : String
  resource_type : Option String := none
  response_status : Option Int := none
  response_headers : List (String × String) := []
  response_body : Option String := none
  end_time : Option ℚ := none
  failed : Bool := false
  failure_reason : Option String := none
  initiator : Option Initiator := none
  response_size : Option Int := none
  dom_element_info : Option (List (String × String)) := none
  ui_section : Option String := none
  element_selector : Option String := none
  element_text : Option String := none
  element_position : Option ElementPos := none
deriving DecidableEq

namespace NetworkRequestTracker

/-- `duration` property: `end_time - start_time` when `end_time` is truthy
(`if self.end_time:` is false for `None` and for `0.0`). -/
def duration (t : NetworkRequestTracker) : Option ℚ :=
  match t.end_time with
  | some e => if e = 0 then none else some (e - t.start_time)
  | none => none

/-- `is_api_call` property: resource type XHR/Fetch, or a response
content-type header starting with `application/json`. -/
def is_api_call (t : NetworkRequestTracker) : Bool :=
  (t.resource_type == some "XHR" || t.resource_type == some "Fetch")
    || strStartsWith (dictGetD t.response_headers "content-type" "") "application/json"

/-- `is_ui_resource` property: Document/Stylesheet/Script/Image/Font. -/
def is_ui_resource (t : NetworkRequestTracker) : Bool :=
  t.resource_type == some "Document" || t.resource_type == some "Stylesheet"
    || t.resource_type == some "Script" || t.resource_type == some "Image"
    || t.resource_type == some "Font"

/-- One call frame of the initiator scan inside `likely_ui_trigger`:
the three pattern groups are tried in order on the lowercased function
name; `none` means this frame matches nothing and the scan continues. -/
def frameTrigger (f : CallFrame) : Option String :=
  let fn := strToLower f.functionName
  if strContains fn "click" || strContains fn "submit"
      || strContains fn "change" || strContains fn "input" then
    some ("User interaction (" ++ fn ++ ")")
  else if strContains fn "onclick" || strContains fn "onsubmit" then
    some ("Event handler (" ++ fn ++ ")")
  else if strContains fn "fetch" || strContains fn "xhr" then
    some "AJAX call"
  else none

/-- The initiator-based part of `likely_ui_trigger` (everything before the
URL-pattern fallback). A `script` initiator scans its call frames with
`frameTrigger`; `parser`/`other` return fixed labels; anything else (or a
missing initiator) falls through to the URL check. -/
def initiatorTrigger (t : NetworkRequestTracker) : Option String :=
  match t.initiator with
  | none => none
  | some ini =>
    if ini.type == "script" then
      let frames := match ini.stack with
        | some st => st.callFrames
        | none => []
      frames.findSome? frameTrigger
    else if ini.type == "parser" then some "Page parsing (HTML/CSS)"
    else if ini.type == "other" then some "Browser initiated"
    else none

/-- The URL-pattern fallback of `likely_ui_trigger`, applied to the
lowercased URL; every pattern carries a leading slash in the source. -/
def urlPatternTrigger (url : String) : Option String :=
  let u := strToLower url
  if strContains u "/submit" || strContains u "/save"
      || strContains u "/update" || strContains u "/delete" then
    some "Form submission"
  else if strContains u "/search" || strContains u "/query"
      || strContains u "/filter" then
    some "Search/Filter action"
  else if strContains u "/load" || strContains u "/get"
      || strContains u "/fetch" then
    some "Data loading"
  else none

/-- `likely_ui_trigger` property: initiator analysis first; if it produces
nothing, the URL-pattern check runs, but only for API calls. -/
def likely_ui_trigger (t : NetworkRequestTracker) : Option String :=
  match initiatorTrigger t with
  | some s => some s
  | none => if t.is_api_call then urlPatternTrigger t.url else none

/-- `_identify_interactive_elements`: URL-pattern guesses for the UI
section and element text of an API call (the DOM snapshot argument of the
source is never read). -/
def identify_interactive_elements (t : NetworkRequestTracker) : NetworkRequestTracker :=
  let u := strToLower t.url
  if strContains u "/search" || strContains u "/query" || strContains u "/filter" then
    { t with ui_section := some "Search/Filter interface",
             element_text := some "Search or filter control" }
  else if strContains u "/submit" || strContains u "/save"
      || strContains u "/create" || strContains u "/update" then
    { t with ui_section := some "Form submission area",
             element_text := some "Submit or save button" }
  else if strContains u "/delete" || strContains u "/remove" then
    { t with ui_section := some "Action controls",
             element_text := some "Delete or remove button" }
  else if strContains u "/load" || strContains u "/get" || strContains u "/fetch" then
    { t with ui_section := some "Content loading area",
             element_text := some "Dynamic content trigger" }
  else
    { t with ui_section := some "Interactive element" }

/-- `_identify_media_elements`: filename-derived labels for media
resources (the DOM snapshot argument of the source is never read). -/
def identify_media_elements (t : NetworkRequestTracker) : NetworkRequestTracker :=
  if t.resource_type == some "Image" then
    { t with ui_section := some "Image content",
             element_text := some ("Image: " ++ lastSegment t.url) }
  else if t.resource_type == some "Media" || t.resource_type == some "Other" then
    { t with ui_section := some "Media content",
             element_text := some ("Media: " ++ lastSegment t.url) }
  else t

/-- `_correlate_with_dom_elements`: re-runs the same resource-kind
classification (the snapshot, source URL and line number are not used
beyond this dispatch). -/
def correlate_with_dom_elements (t : NetworkRequestTracker) : NetworkRequestTracker :=
  if t.is_api_call then identify_interactive_elements t
  else if t.resource_type == some "Image" || t.resource_type == some "Media" then
    identify_media_elements t
  else if t.resource_type == some "Stylesheet" || t.resource_type == some "Script" then
    { t with ui_section := some "Page resources" }
  else t

/-- The frame filter of the second phase of `analyze_dom_context`: the first
frame whose URL is non-empty, not a `chrome-extension://` URL and free of
`javascript:` triggers `_correlate_with_dom_elements` (then `break`). -/
def correlateFirstFrame (t : NetworkRequestTracker) : List CallFrame → NetworkRequestTracker
  | [] => t
  | f :: rest =>
    if f.url ≠ "" && !strStartsWith f.url "chrome-extension://"
        && !strContains f.url "javascript:" then
      correlate_with_dom_elements t
    else
      correlateFirstFrame t rest

/-- The first phase of `analyze_dom_context`: the basic resource-kind
classification at the top of the method. -/
def basicClassification (t : NetworkRequestTracker) : NetworkRequestTracker :=
  if t.is_api_call then identify_interactive_elements t
  else if t.resource_type == some "Image" || t.resource_type == some "Media" then
    identify_media_elements t
  else if t.resource_type == some "Stylesheet" || t.resource_type == some "Script" then
    { t with ui_section := some "Page resources" }
  else t

/-- `analyze_dom_context`: first the basic resource-kind classification,
then (only when both an initiator and a truthy, i.e. non-empty, DOM
snapshot are present) the call-frame correlation phase. -/
def analyze_dom_context (t : NetworkRequestTracker)
    (dom_snapshot : Option (List (String × String))) : NetworkRequestTracker :=
  let t1 := basicClassification t
  match t1.initiator, dom_snapshot with
  | some ini, some snap =>
    if snap.isEmpty then t1
    else
      let frames := match ini.stack with
        | some st => st.callFrames
        | none => []
      correlateFirstFrame t1 frames
  | _, _ => t1

/-- `identify_ui_section_by_position`: the 9-region viewport grid; a
no-op when no element geometry is recorded. `0.2`, `0.8`, `0.3`, `0.7`
are the float constants of the source as exact rationals. -/
def identify_ui_section_by_position (t : NetworkRequestTracker)
    (viewport_width : ℚ := 1280) (viewport_height : ℚ := 720) : NetworkRequestTracker :=
  match t.element_position with
  | none => t
  | some p =>
    let sec :=
      if p.y < 100 then
        if p.x < viewport_width * (2/10) then "Header - Left (Logo/Menu)"
        else if p.x > viewport_width * (8/10) then "Header - Right (User/Actions)"
        else "Header - Center (Navigation)"
      else if p.x < 200 then "Sidebar - Left (Navigation/Menu)"
      else if p.x > viewport_width - 200 then "Sidebar - Right (Info/Actions)"
      else if p.y > viewport_height - 100 then "Footer"
      else
        if p.y < viewport_height * (3/10) then "Main content - Top"
        else if p.y > viewport_height * (7/10) then "Main content - Bottom"
        else "Main content - Center"
    { t with ui_section := some sec }

end NetworkRequestTracker

/-- The dictionary produced by `NetworkRequestTracker.to_dict`, one field
per serialized key (derived properties included). -/
structure RequestDict where
  request_id : String
  url : String
  method : String
  resource_type : Option String
  start_time : ℚ
  end_time : Option ℚ
  duration : Option ℚ
  response_status : Option Int
  response_headers : List (String × String)
  failed : Bool
  failure_reason : Option String
  initiator : Option Initiator
  response_size : Option Int
  is_api_call : Bool
  is_ui_resource : Bool
  likely_ui_trigger : Option String
  ui_section : Option String
  element_selector : Option String
  element_text : Option String
  element_position : Option ElementPos
  dom_element_info : Option (List (String × String))
deriving DecidableEq

/-- `to_dict`: serialization of a tracker, including the derived
`duration`, `is_api_call`, `is_ui_resource` and `likely_ui_trigger`. -/
def NetworkRequestTracker.to_dict (t : NetworkRequestTracker) : RequestDict :=
  { request_id := t.request_id
    url := t.url
    method := t.method
    resource_type := t.resource_type
    start_time := t.start_time
    end_time := t.end_time
    duration := t.duration
    response_status := t.response_status
    response_headers := t.response_headers
    failed := t.failed
    failure_reason := t.failure_reason
    initiator := t.initiator
    response_size := t.response_size
    is_api_call := t.is_api_call
    is_ui_resource := t.is_ui_resource
    likely_ui_trigger := t.likely_ui_trigger
    ui_section := t.ui_section
    element_selector := t.element_selector
    element_text := t.element_text
    element_position := t.element_position
    dom_element_info := t.dom_element_info }

/-! ### The request-tracking dict (`_active_requests`)

Python dicts keyed by request ID, as ordered association lists:
assignment replaces in place or appends, `del` removes the key. -/

/-- `d[k]` lookup / `k in d` membership for the active-request dict. -/
def dlookup : List (String × NetworkRequestTracker) → String → Option NetworkRequestTracker
  | [], _ => none
  | p :: rest, k => if p.1 == k then some p.2 else dlookup rest k

/-- `d[k] = v`: replace the existing binding in place, else append. -/
def dinsert : List (String × NetworkRequestTracker) → String → NetworkRequestTracker →
    List (String × NetworkRequestTracker)
  | [], k, v => [(k, v)]
  | p :: rest, k, v => if p.1 == k then (k, v) :: rest else p :: dinsert rest k v

/-- `del d[k]`. -/
def derase (m : List (String × NetworkRequestTracker)) (k : String) :
    List (String × NetworkRequestTracker) :=
  m.filter (fun p => !(p.1 == k))

/-! ### NetworkWatchdog state and CDP handlers -/

/-- `_store_completed_request`: append, and when the length exceeds
`max_stored_requests`, keep `self._completed_requests[-max:]`
(which is the whole list when the configured maximum is `0`). -/
def store_completed_request (maxStored : Nat) (buf : List NetworkRequestTracker)
    (t : NetworkRequestTracker) : List NetworkRequestTracker :=
  let b := buf ++ [t]
  if maxStored < b.length then pyTail maxStored b else b

/-- The request-tracking state of `NetworkWatchdog`: the configured
maximum, the active mapping and the completed buffer. -/
structure NetworkState where
  max_stored_requests : Nat := 200
  active : List (String × NetworkRequestTracker) := []
  completed : List NetworkRequestTracker := []
deriving DecidableEq

/-- `Network.requestWillBeSent` payload (the fields the handler reads,
with the `.get` defaults of the source; a missing `initiator` key and the
empty-dict default are indistinguishable to the tracker logic). -/
structure RequestSentEvent where
  requestId : String := ""
  url : String := ""
  method : String := ""
  type : Option String := none
  initiator : Option Initiator := none
deriving DecidableEq

/-- `Network.responseReceived` payload. -/
structure ResponseReceivedEvent where
  requestId : String := ""
  status : Option Int := none
  headers : List (String × String) := []
deriving DecidableEq

/-- `Network.loadingFinished` payload. -/
structure LoadingFinishedEvent where
  requestId : String := ""
  encodedDataLength : Option Int := none
deriving DecidableEq

/-- `Network.loadingFailed` payload. -/
structure LoadingFailedEvent where
  requestId : String := ""
  errorText : Option String := none
deriving DecidableEq

/-- The tracker built by `_on_request_will_be_sent` before insertion:
constructed from the event, initiator attached, then the DOM-correlation
fallback path runs `analyze_dom_context(None)` (no DOM watchdog). `now`
is the `time.time()` stamp. -/
def sentTracker (e : RequestSentEvent) (now : ℚ) : NetworkRequestTracker :=
  NetworkRequestTracker.analyze_dom_context
    { request_id := e.requestId
      start_time := now
      url := e.url
      method := e.method
      resource_type := e.type
      initiator := e.initiator }
    none

/-- `_on_request_will_be_sent`: build the tracker and insert it into the
active mapping keyed by request ID. -/
def on_request_will_be_sent (st : NetworkState) (e : RequestSentEvent) (now : ℚ) :
    NetworkState :=
  { st with active := dinsert st.active e.requestId (sentTracker e now) }

/-- `_on_response_received`: update status and headers in place when the
request ID is active; otherwise a no-op. -/
def on_response_received (st : NetworkState) (e : ResponseReceivedEvent) : NetworkState :=
  match dlookup st.active e.requestId with
  | none => st
  | some t =>
    let t1 := { t with response_status := e.status, response_headers := e.headers }
    { st with active := dinsert st.active e.requestId t1 }

/-- The tracker as completed by `_on_loading_finished`: end time stamped;
the transferred size is recorded only when `encodedDataLength` is truthy
(present and non-zero). -/
def finishedTracker (t : NetworkRequestTracker) (e : LoadingFinishedEvent) (now : ℚ) :
    NetworkRequestTracker :=
  let t1 := { t with end_time := some now }
  match e.encodedDataLength with
  | some n => if n = 0 then t1 else { t1 with response_size := some n }
  | none => t1

/-- `_on_loading_finished`: when the ID is active, stamp the end time,
capture a truthy transferred size, store into the completed buffer and
remove from the active mapping; otherwise a no-op. -/
def on_loading_finished (st : NetworkState) (e : LoadingFinishedEvent) (now : ℚ) :
    NetworkState :=
  match dlookup st.active e.requestId with
  | none => st
  | some t =>
    { st with
      completed := store_completed_request st.max_stored_requests st.completed
        (finishedTracker t e now)
      active := derase st.active e.requestId }

/-- The tracker as completed by `_on_loading_failed`: failed flag set,
failure reason from the errorText key with default Unknown error, end stamped. -/
def failedTracker (t : NetworkRequestTracker) (e : LoadingFailedEvent) (now : ℚ) :
    NetworkRequestTracker :=
  { t with failed := true
           failure_reason := some (e.errorText.getD "Unknown error")
           end_time := some now }

/-- `_on_loading_failed`: when the ID is active, mark failed, stamp the
end time, store into the completed buffer and remove from the active
mapping; otherwise a no-op. -/
def on_loading_failed (st : NetworkState) (e : LoadingFailedEvent) (now : ℚ) :
    NetworkState :=
  match dlookup st.active e.requestId with
  | none => st
  | some t =>
    { st with
      completed := store_completed_request st.max_stored_requests st.completed
        (failedTracker t e now)
      active := derase st.active e.requestId }

/-! ### Query surface over the completed buffer -/

/-- `get_recent_requests`: the last `limit` completed requests,
serialized ( `[]` when nothing has completed). -/
def get_recent_requests (completed : List NetworkRequestTracker) (limit : Nat := 10) :
    List RequestDict :=
  let recent := if completed.isEmpty then [] else pyTail limit completed
  recent.map NetworkRequestTracker.to_dict

/-- `get_api_requests`: the last `limit` completed API calls, serialized. -/
def get_api_requests (completed : List NetworkRequestTracker) (limit : Nat := 10) :
    List RequestDict :=
  (pyTail limit (completed.filter (·.is_api_call))).map NetworkRequestTracker.to_dict

/-- `get_ui_requests`: the last `limit` completed UI resources, serialized. -/
def get_ui_requests (completed : List NetworkRequestTracker) (limit : Nat := 10) :
    List RequestDict :=
  (pyTail limit (completed.filter (·.is_ui_resource))).map NetworkRequestTracker.to_dict

/-! ### CrashWatchdog: state machine, health check, monitoring loop

The session pool (`BrowserSession._cdp_session_pool`) maps target IDs to
session handles; handles are abstract and modelled by numeric tokens so
that disconnections can be observed. The browser-process handle and the
probe outcome are environment inputs of one health check. -/

/-- The focused-session pointer (`browser_session.agent_focus`); the
health check clears only `target_id`, the crash listener clears both. -/
structure FocusInfo where
  target_id : Option String := none
  session_id : Option String := none
deriving DecidableEq

/-- Monitoring episode states of the watchdog (`Idle → Monitoring → Stopped`). -/
inductive MonState where
  | idle
  | monitoring
  | stopped
deriving DecidableEq

/-- `psutil` process status values the check distinguishes. -/
inductive ProcStatus where
  | running
  | sleeping
  | zombie
  | dead
deriving DecidableEq

/-- The status string `proc.status()` reports (used in event details). -/
def ProcStatus.str : ProcStatus → String
  | .running => "running"
  | .sleeping => "sleeping"
  | .zombie => "zombie"
  | .dead => "dead"

/-- A `BrowserErrorEvent` as dispatched on the event bus. -/
structure ErrorEvent where
  error_type : String
  message : String
  details : List (String × String)
deriving DecidableEq

/-- The state the crash watchdog reads and mutates: the focus pointer,
the session pool, the per-session listener idempotency set, and the
monitoring episode state. -/
structure CrashState where
  agent_focus : Option FocusInfo := none
  pool : List (String × Nat) := []
  sessions_with_listeners : List String := []
  monitoring : MonState := MonState.monitoring
deriving DecidableEq

/-- `_stop_monitoring` as called from outside the monitoring-loop task
(the browser-stopped handler): the cancellation is delivered at one of
the loop awaits, the loop catches it and breaks, and the episode stops;
the per-session listener bookkeeping is cleared. Pooled sessions are not
disconnected here. -/
def stop_monitoring_external (st : CrashState) : CrashState :=
  { st with monitoring := MonState.stopped, sessions_with_listeners := [] }

/-- `_stop_monitoring` as called from inside the monitoring loop itself
(the process-crash path of `_check_browser_health`): the routine cancels
the loop task — which is the task it is running on — then awaits it, so
the cancellation is delivered at that very await and swallowed by the
`except CancelledError: pass` inside `_stop_monitoring`. The loop
therefore keeps running; only the per-session listener bookkeeping is
cleared, and the episode never leaves the monitoring state. -/
def stop_monitoring_from_loop (st : CrashState) : CrashState :=
  { st with sessions_with_listeners := [] }

/-- Result of one `_check_browser_health` run: the new state, the error
events dispatched, the session handles disconnected, and whether an
uncaught exception escaped the check (it is swallowed by the loop). -/
structure CheckResult where
  state : CrashState
  events : List ErrorEvent
  disconnected : List Nat
  raised : Bool
deriving DecidableEq

/-- The `BrowserProcessCrashed` event dispatched on process death. -/
def procCrashEvent (pid : Nat) (s : ProcStatus) : ErrorEvent :=
  { error_type := "BrowserProcessCrashed"
    message := "Browser process " ++ toString pid ++ " has crashed"
    details := [("pid", toString pid), ("status", s.str)] }

/-- The `TargetCrash` event dispatched by the crash-notification listener. -/
def targetCrashEvent (target_id : String) : ErrorEvent :=
  { error_type := "TargetCrash"
    message := "Target crashed: " ++ target_id
    details := [("target_id", target_id)] }

/-- `_check_browser_health`. `probeOk` is the outcome of the 1-second
`Runtime.evaluate` probe (timeout and transport error are the same
failure); `proc` is the local browser-process handle with its status, or
`none` when no local process is attached. On probe failure the focused
session of the focused target is popped from the pool, disconnected, and the focus
pointer has its `target_id` cleared — no event is dispatched on this path;
with no focus pointer at all, clearing it raises (`AttributeError`),
skipping the process check. A dead/zombie process disconnects and clears
the whole pool, dispatches one `BrowserProcessCrashed` event per check
and calls `_stop_monitoring` from inside the loop — which swallows the
cancellation of the loop task, so the episode keeps monitoring. -/
def check_browser_health (st : CrashState) (probeOk : Bool)
    (proc : Option (Nat × ProcStatus)) : CheckResult :=
  let probePhase : CrashState × List Nat × Bool :=
    if probeOk then (st, [], false)
    else
      match st.agent_focus with
      | none => (st, [], true)
      | some f =>
        let (pool1, disc1) :=
          match f.target_id with
          | some tid =>
            (st.pool.filter (fun q => !(q.1 == tid)),
             ((st.pool.find? (fun q => q.1 == tid)).map (·.2)).toList)
          | none => (st.pool, [])
        ({ st with pool := pool1, agent_focus := some { f with target_id := none } },
         disc1, false)
  match probePhase with
  | (st1, disc1, raised) =>
    if raised then
      { state := st1, events := [], disconnected := disc1, raised := true }
    else
      match proc with
      | some (pid, s) =>
        if s = ProcStatus.zombie ∨ s = ProcStatus.dead then
          { state := stop_monitoring_from_loop { st1 with pool := [] }
            events := [procCrashEvent pid s]
            disconnected := disc1 ++ st1.pool.map (·.2)
            raised := false }
        else
          { state := st1, events := [], disconnected := disc1, raised := false }
      | none => { state := st1, events := [], disconnected := disc1, raised := false }

/-- `_on_target_crash_cdp` (the native crash-notification listener): pop
and disconnect the session of the crashed target; when the target is still
listed and is the focused one, clear both focus fields; always dispatch
one `TargetCrash` event. `targetListed` says whether `Target.getTargets`
still reports the target. -/
def on_target_crash_cdp (st : CrashState) (target_id : String) (targetListed : Bool) :
    CheckResult :=
  let disc := ((st.pool.find? (fun q => q.1 == target_id)).map (·.2)).toList
  let pool1 := st.pool.filter (fun q => !(q.1 == target_id))
  let focus1 :=
    match st.agent_focus with
    | some f =>
      if targetListed && (f.target_id == some target_id) then
        some { f with target_id := none, session_id := none }
      else some f
    | none => none
  { state := { st with pool := pool1, agent_focus := focus1 }
    events := [targetCrashEvent target_id]
    disconnected := disc
    raised := false }

/-- Accumulator of the monitoring loop: current state, events dispatched
so far, and how many health checks have run. -/
structure MonitorAcc where
  state : CrashState
  events : List ErrorEvent
  probes : Nat
deriving DecidableEq

/-- One iteration of `_monitoring_loop`: while the loop task is alive
(episode in the monitoring state), run a health check — exceptions are
caught and the loop continues, and the in-loop stop call never ends the
episode because it swallows its own cancellation. Only an external
cancellation (browser-stopped) breaks the loop, after which nothing
runs. -/
def monitor_step (acc : MonitorAcc) (inp : Bool × Option (Nat × ProcStatus)) : MonitorAcc :=
  if acc.state.monitoring = MonState.monitoring then
    let r := check_browser_health acc.state inp.1 inp.2
    { state := r.state, events := acc.events ++ r.events, probes := acc.probes + 1 }
  else acc

/-- Run the monitoring loop over a sequence of environment inputs
(probe outcome and process handle per tick). -/
def run_monitor (st : CrashState) (inputs : List (Bool × Option (Nat × ProcStatus))) :
    MonitorAcc :=
  inputs.foldl monitor_step { state := st, events := [], probes := 0 }

/-! ### Listener registration (`attach_to_target`) idempotency

Both watchdogs guard registration with a per-session-ID membership set
(`_sessions_with_listeners`). The registration log records every
`cdp_client.register` call as a (session ID, notification kind) pair. -/

/-- Listener-registration bookkeeping of one watchdog. -/
structure AttachState where
  sessions_with_listeners : List String := []
  registered : List (String × String) := []
deriving DecidableEq

/-- The four network notification kinds `NetworkWatchdog.attach_to_target`
registers handlers for. -/
def networkKinds : List String :=
  ["Network.requestWillBeSent", "Network.responseReceived",
   "Network.loadingFailed", "Network.loadingFinished"]

/-- `NetworkWatchdog.attach_to_target`, after the target resolves to
session ID `sid`: return immediately when the session is already
monitored, else register one handler per network notification kind and
record the session. -/
def network_attach (st : AttachState) (sid : String) : AttachState :=
  if sid ∈ st.sessions_with_listeners then st
  else
    { sessions_with_listeners := st.sessions_with_listeners ++ [sid]
      registered := st.registered ++ networkKinds.map (fun k => (sid, k)) }

/-- `CrashWatchdog.attach_to_target`, after the target resolves to
session ID `sid`: return immediately when listeners already exist, else
register the single `Target.targetCrashed` handler and record the
session. -/
def crash_attach (st : AttachState) (sid : String) : AttachState :=
  if sid ∈ st.sessions_with_listeners then st
  else
    { sessions_with_listeners := st.sessions_with_listeners ++ [sid]
      registered := st.registered ++ [(sid, "Target.targetCrashed")] }

/-! ### Helper lemmas about the dict and buffer operations -/

theorem dlookup_derase (m : List (String × NetworkRequestTracker)) (k : String) :
    dlookup (derase m k) k = none := by
  induction m with
  | nil => rfl
  | cons p rest ih =>
    by_cases h : (p.1 == k) = true
    · simpa [derase, List.filter_cons, h] using ih
    · simp only [Bool.not_eq_true] at h
      simpa [derase, List.filter_cons, h, dlookup] using ih

theorem dlookup_dinsert_self (m : List (String × NetworkRequestTracker))
    (k : String) (v : NetworkRequestTracker) :
    dlookup (dinsert m k v) k = some v := by
  induction m with
  | nil => simp [dinsert, dlookup]
  | cons p rest ih =>
    by_cases h : (p.1 == k) = true
    · simp [dinsert, dlookup, h]
    · simp only [Bool.not_eq_true] at h
      simpa [dinsert, dlookup, h] using ih

theorem store_eq_drop_concat (maxStored : Nat) (buf : List NetworkRequestTracker)
    (t : NetworkRequestTracker) (hmax : 1 ≤ maxStored) :
    ∃ d, d ≤ buf.length ∧
      store_completed_request maxStored buf t = buf.drop d ++ [t] := by
  have hlen : (buf ++ [t]).length = buf.length + 1 := by simp
  by_cases h : maxStored < (buf ++ [t]).length
  · refine ⟨buf.length + 1 - maxStored, by omega, ?_⟩
    have hm0 : ¬ maxStored = 0 := by omega
    show (if maxStored < (buf ++ [t]).length then pyTail maxStored (buf ++ [t])
          else buf ++ [t]) = _
    rw [if_pos h]
    unfold pyTail
    rw [if_neg hm0, hlen, List.drop_append_eq_append_drop]
    have h2 : buf.length + 1 - maxStored - buf.length = 0 := by omega
    rw [h2, List.drop_zero]
  · refine ⟨0, Nat.zero_le _, ?_⟩
    show (if maxStored < (buf ++ [t]).length then pyTail maxStored (buf ++ [t])
          else buf ++ [t]) = _
    rw [if_neg h, List.drop_zero]

theorem count_store_of_not_mem (maxStored : Nat) (buf : List NetworkRequestTracker)
    (t : NetworkRequestTracker) (hmax : 1 ≤ maxStored) (hnm : t ∉ buf) :
    (store_completed_request maxStored buf t).count t = 1 := by
  obtain ⟨d, _, heq⟩ := store_eq_drop_concat maxStored buf t hmax
  rw [heq, List.count_append]
  have hdrop : t ∉ buf.drop d := fun hc => hnm (List.mem_of_mem_drop hc)
  rw [List.count_eq_zero.mpr hdrop]
  simp

theorem getLast_store (maxStored : Nat) (buf : List NetworkRequestTracker)
    (t : NetworkRequestTracker) (hmax : 1 ≤ maxStored) :
    (store_completed_request maxStored buf t).getLast? = some t := by
  obtain ⟨d, _, heq⟩ := store_eq_drop_concat maxStored buf t hmax
  rw [heq, List.getLast?_concat]

/-- Folding `_store_completed_request` over an insertion sequence keeps
exactly the newest `maxStored` records, in order (for a positive
configured maximum). -/
theorem foldl_store_eq_drop (maxStored : Nat) (hmax : 1 ≤ maxStored)
    (l : List NetworkRequestTracker) :
    l.foldl (store_completed_request maxStored) []
      = l.drop (l.length - maxStored) := by
  induction l using List.reverseRecOn with
  | nil => simp
  | append_singleton l a ih =>
    rw [List.foldl_append]
    simp only [List.foldl_cons, List.foldl_nil, ih]
    have hstep : ∃ d, d ≤ (l.drop (l.length - maxStored)).length ∧
        store_completed_request maxStored (l.drop (l.length - maxStored)) a
          = (l.drop (l.length - maxStored)).drop d ++ [a] :=
      store_eq_drop_concat maxStored _ a hmax
    by_cases hcase : l.length + 1 ≤ maxStored
    · have h0 : l.length - maxStored = 0 := by omega
      have hni : ¬ maxStored < (l.drop (l.length - maxStored) ++ [a]).length := by
        simp only [h0, List.drop_zero, List.length_append, List.length_cons,
          List.length_nil]
        omega
      show (if maxStored < (l.drop (l.length - maxStored) ++ [a]).length
            then pyTail maxStored (l.drop (l.length - maxStored) ++ [a])
            else l.drop (l.length - maxStored) ++ [a]) = _
      rw [if_neg hni, h0, List.drop_zero]
      have h0' : (l ++ [a]).length - maxStored = 0 := by
        simp only [List.length_append, List.length_cons, List.length_nil]; omega
      rw [h0', List.drop_zero]
    · have hle : maxStored ≤ l.length := by omega
      have hdlen : (l.drop (l.length - maxStored)).length = maxStored := by
        rw [List.length_drop]; omega
      have hlt : maxStored < (l.drop (l.length - maxStored) ++ [a]).length := by
        rw [List.length_append, hdlen]; simp
      have hm0 : ¬ maxStored = 0 := by omega
      show (if maxStored < (l.drop (l.length - maxStored) ++ [a]).length
            then pyTail maxStored (l.drop (l.length - maxStored) ++ [a])
            else l.drop (l.length - maxStored) ++ [a]) = _
      rw [if_pos hlt]
      unfold pyTail
      rw [if_neg hm0]
      have hlen1 : (l.drop (l.length - maxStored) ++ [a]).length - maxStored = 1 := by
        rw [List.length_append, hdlen]; simp
      rw [hlen1, List.drop_append_eq_append_drop]
      have h1d : 1 - (l.drop (l.length - maxStored)).length = 0 := by omega
      rw [h1d, List.drop_zero, List.drop_drop]
      have harith : (l ++ [a]).length - maxStored = l.length - maxStored + 1 := by
        simp only [List.length_append, List.length_cons, List.length_nil]; omega
      rw [harith, List.drop_append_eq_append_drop]
      have h2d : l.length - maxStored + 1 - l.length = 0 := by omega
      rw [h2d, List.drop_zero]

/-! ### Claim C1: completed-buffer bound, order and recency -/

/-- The completed buffer after a sequence of `_store_completed_request`
insertions, starting from the empty buffer. -/
def completedAfter (maxStored : Nat) (l : List NetworkRequestTracker) :
    List NetworkRequestTracker :=
  l.foldl (store_completed_request maxStored) []

/-- The synthetic record inserted at index `i` in the 250-insertion
scenario. -/
def mkSyntheticReq (i : Nat) : NetworkRequestTracker :=
  { request_id := toString i, start_time := 0, url := "", method := "GET" }

/-- The insertion sequence of `n` synthetic records, indices `0..n-1`. -/
def syntheticReqs (n : Nat) : List NetworkRequestTracker :=
  (List.range n).map mkSyntheticReq

theorem syntheticReqs_length (n : Nat) : (syntheticReqs n).length = n := by
  simp [syntheticReqs]

theorem completedAfter_250 :
    completedAfter 200 (syntheticReqs 250) = (syntheticReqs 250).drop 50 := by
  rw [completedAfter, foldl_store_eq_drop 200 (by norm_num), syntheticReqs_length]

/-- Claim C1: for every insertion sequence into the completed buffer with
a positive configured maximum, the buffer length stays at most the
maximum and the buffer is exactly the newest suffix of the insertion
sequence (so order is preserved and the oldest entries are evicted); in
the 250-insertion scenario with max = 200 the buffer has length 200,
starts with the record of index 50, ends with the record of index 249,
and `get_recent_requests` returns that record as the most recent
element. -/
theorem completed_buffer_bound_order_recency
    (maxStored : Nat) (hmax : 1 ≤ maxStored) (l : List NetworkRequestTracker) :
    (completedAfter maxStored l).length ≤ maxStored ∧
    completedAfter maxStored l = l.drop (l.length - maxStored) ∧
    (completedAfter 200 (syntheticReqs 250)).length = 200 ∧
    (completedAfter 200 (syntheticReqs 250)).head? = some (mkSyntheticReq 50) ∧
    (completedAfter 200 (syntheticReqs 250)).getLast? = some (mkSyntheticReq 249) ∧
    (∀ limit, 1 ≤ limit →
      (get_recent_requests (completedAfter 200 (syntheticReqs 250)) limit).getLast?
        = some (mkSyntheticReq 249).to_dict) := by
  have hchar := foldl_store_eq_drop maxStored hmax l
  have hlen250 : (completedAfter 200 (syntheticReqs 250)).length = 200 := by
    rw [completedAfter_250, List.length_drop, syntheticReqs_length]
  have hget : ∀ i, i < 250 → (syntheticReqs 250)[i]? = some (mkSyntheticReq i) := by
    intro i hi
    rw [syntheticReqs, List.getElem?_map, List.getElem?_range hi]
    rfl
  refine ⟨?_, hchar, hlen250, ?_, ?_, ?_⟩
  · rw [completedAfter, hchar, List.length_drop]; omega
  · rw [completedAfter_250, List.head?_eq_getElem?, List.getElem?_drop]
    exact hget 50 (by norm_num)
  · rw [completedAfter_250, List.getLast?_eq_getElem?, List.length_drop,
      syntheticReqs_length, List.getElem?_drop]
    exact hget 249 (by norm_num)
  · intro limit hlim
    have hne : (completedAfter 200 (syntheticReqs 250)).isEmpty = false := by
      rw [List.isEmpty_eq_false_iff_exists_mem]
      have : 0 < (completedAfter 200 (syntheticReqs 250)).length := by omega
      exact List.exists_mem_of_length_pos this
    rw [get_recent_requests, hne]
    simp only [Bool.false_eq_true, if_false, List.getLast?_map]
    unfold pyTail
    by_cases h0 : limit = 0
    · omega
    · rw [if_neg h0, hlen250]
      rw [List.getLast?_eq_getElem?, List.length_drop, hlen250, List.getElem?_drop]
      have harith : 200 - limit + (200 - (200 - limit) - 1) = 199 := by omega
      rw [harith]
      have h199 : (completedAfter 200 (syntheticReqs 250))[199]?
          = some (mkSyntheticReq 249) := by
        rw [completedAfter_250, List.getElem?_drop]
        exact hget 249 (by norm_num)
      rw [h199]
      rfl

/-- Witness for C1 at max = 200 and the empty insertion sequence. -/
theorem completed_buffer_bound_order_recency_witness :
    (completedAfter 200 ([] : List NetworkRequestTracker)).length ≤ 200 ∧
    completedAfter 200 ([] : List NetworkRequestTracker)
      = ([] : List NetworkRequestTracker).drop
          (([] : List NetworkRequestTracker).length - 200) ∧
    (completedAfter 200 (syntheticReqs 250)).length = 200 ∧
    (completedAfter 200 (syntheticReqs 250)).head? = some (mkSyntheticReq 50) ∧
    (completedAfter 200 (syntheticReqs 250)).getLast? = some (mkSyntheticReq 249) ∧
    (∀ limit, 1 ≤ limit →
      (get_recent_requests (completedAfter 200 (syntheticReqs 250)) limit).getLast?
        = some (mkSyntheticReq 249).to_dict) :=
  completed_buffer_bound_order_recency 200 (by norm_num) []

/-- Counterexample to C1 as stated: with the configured maximum set to
`0`, the Python slice `lst[-0:]` is the whole list, so one insertion
already leaves the buffer longer than the maximum. -/
theorem completed_buffer_zero_max_counterexample :
    ¬ ((completedAfter 0 [mkSyntheticReq 0]).length ≤ 0) := by
  simp [completedAfter, store_completed_request, pyTail]

/-! ### Claim C4: URL-pattern trigger labels -/

/-- The scenario record: URL `https://x/api/search?q=y`, resource type
XHR, no initiator. -/
def xhrSearchRecord : NetworkRequestTracker :=
  { request_id := "s1", start_time := 0, url := "https://x/api/search?q=y",
    method := "GET", resource_type := some "XHR" }

/-- A record whose URL contains the bare substring `submit` but none of
the slash-prefixed patterns the source actually checks. -/
def bareSubmitRecord : NetworkRequestTracker :=
  { request_id := "b1", start_time := 0, url := "https://x/apisubmit",
    method := "POST", resource_type := some "XHR" }

/-- Counterexample to C4 as stated: an API call whose URL contains the
substring `submit` (but not `/submit`) gets no trigger label at all, not
"Form submission" — the source matches each keyword only with a leading
slash. -/
theorem url_trigger_bare_substring_counterexample :
    strContains (strToLower bareSubmitRecord.url) "submit" = true ∧
    bareSubmitRecord.is_api_call = true ∧
    NetworkRequestTracker.initiatorTrigger bareSubmitRecord = none ∧
    bareSubmitRecord.likely_ui_trigger = none := by
  refine ⟨by decide, by decide, rfl, by decide⟩

/-- Claim C4 (amended): when the initiator analysis yields no label and
the record is an API call, the trigger is decided by URL substring
checks in order with slash-prefixed keywords — `/submit`, `/save`,
`/update`, `/delete` give "Form submission"; else `/search`, `/query`,
`/filter` give "Search/Filter action"; else `/load`, `/get`, `/fetch`
give "Data loading"; else no label. For `https://x/api/search?q=y` with
resource type XHR: `is_api_call` is true, the trigger contains
"Search/Filter action" and the UI section contains
"Search/Filter interface". -/
theorem url_trigger_slash_patterns
    (t : NetworkRequestTracker)
    (hini : NetworkRequestTracker.initiatorTrigger t = none)
    (hapi : t.is_api_call = true) :
    ((strContains (strToLower t.url) "/submit" || strContains (strToLower t.url) "/save"
        || strContains (strToLower t.url) "/update"
        || strContains (strToLower t.url) "/delete") = true →
      t.likely_ui_trigger = some "Form submission") ∧
    ((strContains (strToLower t.url) "/submit" || strContains (strToLower t.url) "/save"
        || strContains (strToLower t.url) "/update"
        || strContains (strToLower t.url) "/delete") = false →
      (strContains (strToLower t.url) "/search" || strContains (strToLower t.url) "/query"
        || strContains (strToLower t.url) "/filter") = true →
      t.likely_ui_trigger = some "Search/Filter action") ∧
    ((strContains (strToLower t.url) "/submit" || strContains (strToLower t.url) "/save"
        || strContains (strToLower t.url) "/update"
        || strContains (strToLower t.url) "/delete") = false →
      (strContains (strToLower t.url) "/search" || strContains (strToLower t.url) "/query"
        || strContains (strToLower t.url) "/filter") = false →
      (strContains (strToLower t.url) "/load" || strContains (strToLower t.url) "/get"
        || strContains (strToLower t.url) "/fetch") = true →
      t.likely_ui_trigger = some "Data loading") ∧
    ((strContains (strToLower t.url) "/submit" || strContains (strToLower t.url) "/save"
        || strContains (strToLower t.url) "/update"
        || strContains (strToLower t.url) "/delete") = false →
      (strContains (strToLower t.url) "/search" || strContains (strToLower t.url) "/query"
        || strContains (strToLower t.url) "/filter") = false →
      (strContains (strToLower t.url) "/load" || strContains (strToLower t.url) "/get"
        || strContains (strToLower t.url) "/fetch") = false →
      t.likely_ui_trigger = none) ∧
    xhrSearchRecord.is_api_call = true ∧
    (∃ s, xhrSearchRecord.likely_ui_trigger = some s
      ∧ strContains s "Search/Filter action" = true) ∧
    (∃ s, (NetworkRequestTracker.analyze_dom_context xhrSearchRecord none).ui_section
        = some s ∧ strContains s "Search/Filter interface" = true) := by
  have hbase : t.likely_ui_trigger
      = NetworkRequestTracker.urlPatternTrigger t.url := by
    rw [NetworkRequestTracker.likely_ui_trigger, hini, hapi]
    simp
  refine ⟨?_, ?_, ?_, ?_, by decide, ?_, ?_⟩
  · intro h1
    rw [hbase, NetworkRequestTracker.urlPatternTrigger]
    simp only [h1, if_true]
  · intro h1 h2
    rw [hbase, NetworkRequestTracker.urlPatternTrigger]
    simp only [h1, h2, Bool.false_eq_true, if_false, if_true]
  · intro h1 h2 h3
    rw [hbase, NetworkRequestTracker.urlPatternTrigger]
    simp only [h1, h2, h3, Bool.false_eq_true, if_false, if_true]
  · intro h1 h2 h3
    rw [hbase, NetworkRequestTracker.urlPatternTrigger]
    simp only [h1, h2, h3, Bool.false_eq_true, if_false]
  · exact ⟨"Search/Filter action", by decide, by decide⟩
  · exact ⟨"Search/Filter interface", by decide, by decide⟩

/-- Witness for C4 (amended) at the scenario record. -/
theorem url_trigger_slash_patterns_witness :
    ((strContains (strToLower xhrSearchRecord.url) "/submit"
        || strContains (strToLower xhrSearchRecord.url) "/save"
        || strContains (strToLower xhrSearchRecord.url) "/update"
        || strContains (strToLower xhrSearchRecord.url) "/delete") = true →
      xhrSearchRecord.likely_ui_trigger = some "Form submission") ∧
    ((strContains (strToLower xhrSearchRecord.url) "/submit"
        || strContains (strToLower xhrSearchRecord.url) "/save"
        || strContains (strToLower xhrSearchRecord.url) "/update"
        || strContains (strToLower xhrSearchRecord.url) "/delete") = false →
      (strContains (strToLower xhrSearchRecord.url) "/search"
        || strContains (strToLower xhrSearchRecord.url) "/query"
        || strContains (strToLower xhrSearchRecord.url) "/filter") = true →
      xhrSearchRecord.likely_ui_trigger = some "Search/Filter action") ∧
    ((strContains (strToLower xhrSearchRecord.url) "/submit"
        || strContains (strToLower xhrSearchRecord.url) "/save"
        || strContains (strToLower xhrSearchRecord.url) "/update"
        || strContains (strToLower xhrSearchRecord.url) "/delete") = false →
      (strContains (strToLower xhrSearchRecord.url) "/search"
        || strContains (strToLower xhrSearchRecord.url) "/query"
        || strContains (strToLower xhrSearchRecord.url) "/filter") = false →
      (strContains (strToLower xhrSearchRecord.url) "/load"
        || strContains (strToLower xhrSearchRecord.url) "/get"
        || strContains (strToLower xhrSearchRecord.url) "/fetch") = true →
      xhrSearchRecord.likely_ui_trigger = some "Data loading") ∧
    ((strContains (strToLower xhrSearchRecord.url) "/submit"
        || strContains (strToLower xhrSearchRecord.url) "/save"
        || strContains (strToLower xhrSearchRecord.url) "/update"
        || strContains (strToLower xhrSearchRecord.url) "/delete") = false →
      (strContains (strToLower xhrSearchRecord.url) "/search"
        || strContains (strToLower xhrSearchRecord.url) "/query"
        || strContains (strToLower xhrSearchRecord.url) "/filter") = false →
      (strContains (strToLower xhrSearchRecord.url) "/load"
        || strContains (strToLower xhrSearchRecord.url) "/get"
        || strContains (strToLower xhrSearchRecord.url) "/fetch") = false →
      xhrSearchRecord.likely_ui_trigger = none) ∧
    xhrSearchRecord.is_api_call = true ∧
    (∃ s, xhrSearchRecord.likely_ui_trigger = some s
      ∧ strContains s "Search/Filter action" = true) ∧
    (∃ s, (NetworkRequestTracker.analyze_dom_context xhrSearchRecord none).ui_section
        = some s ∧ strContains s "Search/Filter interface" = true) :=
  url_trigger_slash_patterns xhrSearchRecord rfl (by decide)

/-! ### Claim C8: the Correlation Engine is total and degrades to neutral
labels on missing data -/

/-- Claim C8: `likely_ui_trigger` and `analyze_dom_context` are total
functions of the record (every dict access in the source carries a
default, so the embedding needs no error monad); on a record with no
initiator, no response headers and no resource-type tag — whatever its
URL — the record is not classified as an API call, the trigger is
absent, and `analyze_dom_context` with an absent snapshot leaves the
record unchanged. -/
theorem correlation_neutral_on_missing_data
    (t : NetworkRequestTracker)
    (h1 : t.initiator = none) (h2 : t.response_headers = [])
    (h3 : t.resource_type = none) :
    t.is_api_call = false ∧
    t.likely_ui_trigger = none ∧
    NetworkRequestTracker.analyze_dom_context t none = t := by
  have hapi : t.is_api_call = false := by
    unfold NetworkRequestTracker.is_api_call
    rw [h2, h3]
    decide
  have hini : NetworkRequestTracker.initiatorTrigger t = none := by
    unfold NetworkRequestTracker.initiatorTrigger
    rw [h1]
  have htrig : t.likely_ui_trigger = none := by
    unfold NetworkRequestTracker.likely_ui_trigger
    rw [hini, hapi]
    simp
  have e1 : ((none : Option String) == some "Image"
      || (none : Option String) == some "Media") = false := by decide
  have e2 : ((none : Option String) == some "Stylesheet"
      || (none : Option String) == some "Script") = false := by decide
  refine ⟨hapi, htrig, ?_⟩
  unfold NetworkRequestTracker.analyze_dom_context NetworkRequestTracker.basicClassification
  simp only [hapi, h3, e1, e2, Bool.false_eq_true, if_false, h1]

/-- Witness for C8 at a record with a malformed URL and everything else
absent. -/
theorem correlation_neutral_on_missing_data_witness :
    NetworkRequestTracker.is_api_call
      { request_id := "w8", start_time := 0, url := ":::%%not a url", method := "" }
      = false ∧
    NetworkRequestTracker.likely_ui_trigger
      { request_id := "w8", start_time := 0, url := ":::%%not a url", method := "" }
      = none ∧
    NetworkRequestTracker.analyze_dom_context
      { request_id := "w8", start_time := 0, url := ":::%%not a url", method := "" } none
      = { request_id := "w8", start_time := 0, url := ":::%%not a url", method := "" } :=
  correlation_neutral_on_missing_data
    { request_id := "w8", start_time := 0, url := ":::%%not a url", method := "" }
    rfl rfl rfl

/-! ### Claim C9: position-based 9-region grid -/

/-- The 9-region grid of the specification, stated in its own words:
a top band below `y = 100` split by x thresholds at 20% and 80% of the
width into the Header variants; then left sidebar at `x < 200`, right
sidebar at `x > width - 200`, footer at `y > height - 100`, and main
content split Top/Center/Bottom by y at 30% and 70% of the height. -/
def specGridSection (vw vh : ℚ) (p : ElementPos) : String :=
  if p.y < 100 then
    if p.x < vw * (2/10) then "Header - Left (Logo/Menu)"
    else if p.x > vw * (8/10) then "Header - Right (User/Actions)"
    else "Header - Center (Navigation)"
  else if p.x < 200 then "Sidebar - Left (Navigation/Menu)"
  else if p.x > vw - 200 then "Sidebar - Right (Info/Actions)"
  else if p.y > vh - 100 then "Footer"
  else if p.y < vh * (3/10) then "Main content - Top"
  else if p.y > vh * (7/10) then "Main content - Bottom"
  else "Main content - Center"

/-- The scenario record: element geometry (640, 50) in a 1280×720
viewport. -/
def posRecord : NetworkRequestTracker :=
  { request_id := "p1", start_time := 0, url := "https://x/app", method := "GET",
    element_position := some { x := 640, y := 50, width := 120, height := 40 } }

/-- Claim C9: for a record with known element geometry,
`identify_ui_section_by_position` assigns exactly the section of the
9-region grid of the specification; the (640, 50) element in a 1280×720
viewport is classified as the Header-Center variant. -/
theorem position_grid_classification
    (t : NetworkRequestTracker) (p : ElementPos) (vw vh : ℚ)
    (hp : t.element_position = some p) :
    (t.identify_ui_section_by_position vw vh).ui_section
      = some (specGridSection vw vh p) ∧
    (posRecord.identify_ui_section_by_position 1280 720).ui_section
      = some "Header - Center (Navigation)" ∧
    strStartsWith "Header - Center (Navigation)" "Header - Center" = true := by
  have hgen : ∀ (u : NetworkRequestTracker) (q : ElementPos) (w h : ℚ),
      u.element_position = some q →
      (u.identify_ui_section_by_position w h).ui_section
        = some (specGridSection w h q) := by
    intro u q w h hq
    unfold NetworkRequestTracker.identify_ui_section_by_position specGridSection
    rw [hq]
  refine ⟨hgen t p vw vh hp, ?_, by decide⟩
  rw [hgen posRecord { x := 640, y := 50, width := 120, height := 40 } 1280 720 rfl]
  unfold specGridSection
  norm_num

/-- Witness for C9 at the scenario record and viewport. -/
theorem position_grid_classification_witness :
    (posRecord.identify_ui_section_by_position 1280 720).ui_section
      = some (specGridSection 1280 720 { x := 640, y := 50, width := 120, height := 40 }) ∧
    (posRecord.identify_ui_section_by_position 1280 720).ui_section
      = some "Header - Center (Navigation)" ∧
    strStartsWith "Header - Center (Navigation)" "Header - Center" = true :=
  position_grid_classification posRecord
    { x := 640, y := 50, width := 120, height := 40 } 1280 720 rfl

/-! ### Claim C10: API and UI classifications overlap -/

/-- A Document response whose content-type header is JSON: both an API
call and a UI resource. -/
def dualRecord : NetworkRequestTracker :=
  { request_id := "d1", start_time := 0, url := "https://x/page", method := "GET",
    resource_type := some "Document",
    response_headers := [("content-type", "application/json; charset=utf-8")] }

/-- Claim C10: `is_api_call` and `is_ui_resource` are not mutually
exclusive — a Document record with an `application/json` content type
satisfies both, and the API-only and UI-only queries both return it. -/
theorem api_and_ui_classifications_overlap :
    dualRecord.is_api_call = true ∧
    dualRecord.is_ui_resource = true ∧
    get_api_requests [dualRecord] 10 = [dualRecord.to_dict] ∧
    get_ui_requests [dualRecord] 10 = [dualRecord.to_dict] :=
  ⟨rfl, rfl, rfl, rfl⟩

/-! ### Core-field preservation: the correlation phase only touches the
UI-section and element-text labels -/

/-- Agreement of two trackers on the lifecycle-relevant fields (the
correlation phase never writes these). -/
def trackerCoreEq (s t : NetworkRequestTracker) : Prop :=
  s.request_id = t.request_id ∧ s.start_time = t.start_time ∧
  s.end_time = t.end_time ∧ s.response_size = t.response_size ∧
  s.failed = t.failed ∧ s.failure_reason = t.failure_reason

theorem trackerCoreEq_refl (t : NetworkRequestTracker) : trackerCoreEq t t :=
  ⟨rfl, rfl, rfl, rfl, rfl, rfl⟩

theorem trackerCoreEq_trans {s t u : NetworkRequestTracker}
    (h1 : trackerCoreEq s t) (h2 : trackerCoreEq t u) : trackerCoreEq s u := by
  obtain ⟨a1, a2, a3, a4, a5, a6⟩ := h1
  obtain ⟨b1, b2, b3, b4, b5, b6⟩ := h2
  exact ⟨a1.trans b1, a2.trans b2, a3.trans b3, a4.trans b4, a5.trans b5, a6.trans b6⟩

theorem coreEq_identify_interactive (t : NetworkRequestTracker) :
    trackerCoreEq (NetworkRequestTracker.identify_interactive_elements t) t := by
  simp only [NetworkRequestTracker.identify_interactive_elements]
  split_ifs <;> exact ⟨rfl, rfl, rfl, rfl, rfl, rfl⟩

theorem coreEq_identify_media (t : NetworkRequestTracker) :
    trackerCoreEq (NetworkRequestTracker.identify_media_elements t) t := by
  simp only [NetworkRequestTracker.identify_media_elements]
  split_ifs <;> exact ⟨rfl, rfl, rfl, rfl, rfl, rfl⟩

theorem coreEq_correlate (t : NetworkRequestTracker) :
    trackerCoreEq (NetworkRequestTracker.correlate_with_dom_elements t) t := by
  simp only [NetworkRequestTracker.correlate_with_dom_elements]
  split_ifs
  · exact coreEq_identify_interactive t
  · exact coreEq_identify_media t
  · exact ⟨rfl, rfl, rfl, rfl, rfl, rfl⟩
  · exact trackerCoreEq_refl t

theorem coreEq_correlateFirstFrame (t : NetworkRequestTracker)
    (frames : List CallFrame) :
    trackerCoreEq (NetworkRequestTracker.correlateFirstFrame t frames) t := by
  induction frames with
  | nil => exact trackerCoreEq_refl t
  | cons f rest ih =>
    simp only [NetworkRequestTracker.correlateFirstFrame]
    split_ifs
    · exact coreEq_correlate t
    · exact ih

theorem coreEq_basicClassification (t : NetworkRequestTracker) :
    trackerCoreEq (NetworkRequestTracker.basicClassification t) t := by
  simp only [NetworkRequestTracker.basicClassification]
  split_ifs
  · exact coreEq_identify_interactive t
  · exact coreEq_identify_media t
  · exact ⟨rfl, rfl, rfl, rfl, rfl, rfl⟩
  · exact trackerCoreEq_refl t

theorem coreEq_analyze_dom_context (t : NetworkRequestTracker)
    (snap : Option (List (String × String))) :
    trackerCoreEq (NetworkRequestTracker.analyze_dom_context t snap) t := by
  simp only [NetworkRequestTracker.analyze_dom_context]
  split
  · rename_i ini s _ _
    split_ifs
    · exact coreEq_basicClassification t
    · exact trackerCoreEq_trans
        (coreEq_correlateFirstFrame (NetworkRequestTracker.basicClassification t) _)
        (coreEq_basicClassification t)
  · exact coreEq_basicClassification t

/-- Every lifecycle field of the tracker built by
`_on_request_will_be_sent`: ID and start time from the event and the
clock, all terminal fields still unset. -/
theorem sentTracker_fields (e : RequestSentEvent) (n : ℚ) :
    (sentTracker e n).request_id = e.requestId ∧
    (sentTracker e n).start_time = n ∧
    (sentTracker e n).end_time = none ∧
    (sentTracker e n).response_size = none ∧
    (sentTracker e n).failed = false ∧
    (sentTracker e n).failure_reason = none := by
  have h := coreEq_analyze_dom_context
    { request_id := e.requestId, start_time := n, url := e.url, method := e.method,
      resource_type := e.type, initiator := e.initiator } none
  exact h

theorem finishedTracker_end (t : NetworkRequestTracker) (e : LoadingFinishedEvent)
    (n : ℚ) : (finishedTracker t e n).end_time = some n := by
  unfold finishedTracker
  rcases e.encodedDataLength with _ | k
  · rfl
  · by_cases hk : k = 0 <;> simp [hk]

theorem finishedTracker_start (t : NetworkRequestTracker) (e : LoadingFinishedEvent)
    (n : ℚ) : (finishedTracker t e n).start_time = t.start_time := by
  unfold finishedTracker
  rcases e.encodedDataLength with _ | k
  · rfl
  · by_cases hk : k = 0 <;> simp [hk]

/-! ### Claim C5: request-sent then loading-finished -/

/-- Claim C5 (amended): a request that is sent and then finishes appears
exactly once in the completed buffer, is absent from the active mapping,
has its end time stamped with the finish clock so that
`duration = end - start`, and its transferred size is captured whenever
the notification provides a non-zero one. Hypotheses: the buffer maximum
is positive, the finish clock is not the (falsy) zero timestamp, and the
finished record is not already in the buffer. -/
theorem finished_request_lifecycle
    (st : NetworkState) (e1 : RequestSentEvent) (e2 : LoadingFinishedEvent)
    (n1 n2 : ℚ)
    (hid : e2.requestId = e1.requestId)
    (hmax : 1 ≤ st.max_stored_requests)
    (hn2 : n2 ≠ 0)
    (hnew : finishedTracker (sentTracker e1 n1) e2 n2 ∉ st.completed) :
    (on_loading_finished (on_request_will_be_sent st e1 n1) e2 n2).completed.count
        (finishedTracker (sentTracker e1 n1) e2 n2) = 1 ∧
    dlookup (on_loading_finished (on_request_will_be_sent st e1 n1) e2 n2).active
        e2.requestId = none ∧
    (finishedTracker (sentTracker e1 n1) e2 n2).end_time = some n2 ∧
    (finishedTracker (sentTracker e1 n1) e2 n2).start_time = n1 ∧
    (finishedTracker (sentTracker e1 n1) e2 n2).duration = some (n2 - n1) ∧
    (∀ k : Int, e2.encodedDataLength = some k → k ≠ 0 →
      (finishedTracker (sentTracker e1 n1) e2 n2).response_size = some k) := by
  have hlu : dlookup (on_request_will_be_sent st e1 n1).active e2.requestId
      = some (sentTracker e1 n1) := by
    show dlookup (dinsert st.active e1.requestId (sentTracker e1 n1)) e2.requestId
      = some (sentTracker e1 n1)
    rw [hid]
    exact dlookup_dinsert_self st.active e1.requestId (sentTracker e1 n1)
  have hst2 : on_loading_finished (on_request_will_be_sent st e1 n1) e2 n2
      = { max_stored_requests := st.max_stored_requests
          active := derase (dinsert st.active e1.requestId (sentTracker e1 n1))
            e2.requestId
          completed := store_completed_request st.max_stored_requests st.completed
            (finishedTracker (sentTracker e1 n1) e2 n2) } := by
    unfold on_loading_finished
    rw [hlu]
    rfl
  have hstart : (finishedTracker (sentTracker e1 n1) e2 n2).start_time = n1 := by
    rw [finishedTracker_start]
    exact (sentTracker_fields e1 n1).2.1
  refine ⟨?_, ?_, finishedTracker_end _ _ _, hstart, ?_, ?_⟩
  · rw [hst2]
    exact count_store_of_not_mem st.max_stored_requests st.completed _ hmax hnew
  · rw [hst2]
    exact dlookup_derase _ e2.requestId
  · unfold NetworkRequestTracker.duration
    rw [finishedTracker_end, hstart]
    simp [hn2]
  · intro k hk hk0
    unfold finishedTracker
    rw [hk]
    simp [hk0]

/-- Witness for C5 at a fresh state with a 5-byte finished request. -/
theorem finished_request_lifecycle_witness :
    (on_loading_finished
        (on_request_will_be_sent ({} : NetworkState) { requestId := "r1" } 1)
        { requestId := "r1", encodedDataLength := some 5 } 2).completed.count
      (finishedTracker (sentTracker { requestId := "r1" } 1)
        { requestId := "r1", encodedDataLength := some 5 } 2) = 1 ∧
    dlookup
      (on_loading_finished
        (on_request_will_be_sent ({} : NetworkState) { requestId := "r1" } 1)
        { requestId := "r1", encodedDataLength := some 5 } 2).active "r1" = none ∧
    (finishedTracker (sentTracker { requestId := "r1" } 1)
        { requestId := "r1", encodedDataLength := some 5 } 2).end_time = some 2 ∧
    (finishedTracker (sentTracker { requestId := "r1" } 1)
        { requestId := "r1", encodedDataLength := some 5 } 2).start_time = 1 ∧
    (finishedTracker (sentTracker { requestId := "r1" } 1)
        { requestId := "r1", encodedDataLength := some 5 } 2).duration
      = some ((2 : ℚ) - 1) ∧
    (∀ k : Int,
      ({ requestId := "r1", encodedDataLength := some 5 }
        : LoadingFinishedEvent).encodedDataLength = some k → k ≠ 0 →
      (finishedTracker (sentTracker { requestId := "r1" } 1)
        { requestId := "r1", encodedDataLength := some 5 } 2).response_size
        = some k) :=
  finished_request_lifecycle ({} : NetworkState) { requestId := "r1" }
    { requestId := "r1", encodedDataLength := some 5 } 1 2 rfl (by norm_num)
    (by norm_num) (List.not_mem_nil _)

/-- Counterexample to C5 as stated: a loading-finished notification that
provides the transferred size `0` leaves the size of the record uncaptured
(`if encoded_data_length:` is false at `0`). -/
theorem finished_size_zero_counterexample :
    ({ requestId := "r0", encodedDataLength := some 0 }
      : LoadingFinishedEvent).encodedDataLength.isSome = true ∧
    (on_loading_finished
        (on_request_will_be_sent ({} : NetworkState) { requestId := "r0" } 1)
        { requestId := "r0", encodedDataLength := some 0 } 2).completed.map
      (fun t => t.response_size) = [none] :=
  ⟨rfl, rfl⟩

/-! ### Claim C6: request-sent then loading-failed -/

/-- Claim C6 (amended): a request that is sent and then fails ends with
`failed = true`, its failure reason is the `errorText` of the payload when
present (falling back to "Unknown error" when absent) — non-empty unless
the payload itself carries an empty `errorText` —, its end time is
stamped, it is moved to the completed buffer (its newest element,
appearing exactly once), and it is removed from the active mapping. -/
theorem failed_request_lifecycle
    (st : NetworkState) (e1 : RequestSentEvent) (e2 : LoadingFailedEvent)
    (n1 n2 : ℚ)
    (hid : e2.requestId = e1.requestId)
    (hmax : 1 ≤ st.max_stored_requests)
    (hnew : failedTracker (sentTracker e1 n1) e2 n2 ∉ st.completed) :
    (failedTracker (sentTracker e1 n1) e2 n2).failed = true ∧
    (failedTracker (sentTracker e1 n1) e2 n2).failure_reason
      = some (e2.errorText.getD "Unknown error") ∧
    (e2.errorText ≠ some "" →
      ∃ s, (failedTracker (sentTracker e1 n1) e2 n2).failure_reason = some s
        ∧ s ≠ "") ∧
    (failedTracker (sentTracker e1 n1) e2 n2).end_time = some n2 ∧
    (on_loading_failed (on_request_will_be_sent st e1 n1) e2 n2).completed.count
        (failedTracker (sentTracker e1 n1) e2 n2) = 1 ∧
    (on_loading_failed (on_request_will_be_sent st e1 n1) e2 n2).completed.getLast?
      = some (failedTracker (sentTracker e1 n1) e2 n2) ∧
    dlookup (on_loading_failed (on_request_will_be_sent st e1 n1) e2 n2).active
        e2.requestId = none := by
  have hlu : dlookup (on_request_will_be_sent st e1 n1).active e2.requestId
      = some (sentTracker e1 n1) := by
    show dlookup (dinsert st.active e1.requestId (sentTracker e1 n1)) e2.requestId
      = some (sentTracker e1 n1)
    rw [hid]
    exact dlookup_dinsert_self st.active e1.requestId (sentTracker e1 n1)
  have hst2 : on_loading_failed (on_request_will_be_sent st e1 n1) e2 n2
      = { max_stored_requests := st.max_stored_requests
          active := derase (dinsert st.active e1.requestId (sentTracker e1 n1))
            e2.requestId
          completed := store_completed_request st.max_stored_requests st.completed
            (failedTracker (sentTracker e1 n1) e2 n2) } := by
    unfold on_loading_failed
    rw [hlu]
    rfl
  refine ⟨rfl, rfl, ?_, rfl, ?_, ?_, ?_⟩
  · intro hne
    rcases he : e2.errorText with _ | s
    · exact ⟨"Unknown error", by simp [failedTracker, he], by decide⟩
    · refine ⟨s, by simp [failedTracker, he], ?_⟩
      intro hs
      exact hne (by rw [he, hs])
  · rw [hst2]
    exact count_store_of_not_mem st.max_stored_requests st.completed _ hmax hnew
  · rw [hst2]
    exact getLast_store st.max_stored_requests st.completed _ hmax
  · rw [hst2]
    exact dlookup_derase _ e2.requestId

/-- Witness for C6 at a fresh state with a network-error failure. -/
theorem failed_request_lifecycle_witness :
    (failedTracker (sentTracker { requestId := "f1" } 1)
        { requestId := "f1", errorText := some "net::ERR_FAILED" } 2).failed = true ∧
    (failedTracker (sentTracker { requestId := "f1" } 1)
        { requestId := "f1", errorText := some "net::ERR_FAILED" } 2).failure_reason
      = some (({ requestId := "f1", errorText := some "net::ERR_FAILED" }
          : LoadingFailedEvent).errorText.getD "Unknown error") ∧
    (({ requestId := "f1", errorText := some "net::ERR_FAILED" }
        : LoadingFailedEvent).errorText ≠ some "" →
      ∃ s, (failedTracker (sentTracker { requestId := "f1" } 1)
          { requestId := "f1", errorText := some "net::ERR_FAILED" } 2).failure_reason
        = some s ∧ s ≠ "") ∧
    (failedTracker (sentTracker { requestId := "f1" } 1)
        { requestId := "f1", errorText := some "net::ERR_FAILED" } 2).end_time
      = some 2 ∧
    (on_loading_failed
        (on_request_will_be_sent ({} : NetworkState) { requestId := "f1" } 1)
        { requestId := "f1", errorText := some "net::ERR_FAILED" } 2).completed.count
      (failedTracker (sentTracker { requestId := "f1" } 1)
        { requestId := "f1", errorText := some "net::ERR_FAILED" } 2) = 1 ∧
    (on_loading_failed
        (on_request_will_be_sent ({} : NetworkState) { requestId := "f1" } 1)
        { requestId := "f1", errorText := some "net::ERR_FAILED" } 2).completed.getLast?
      = some (failedTracker (sentTracker { requestId := "f1" } 1)
          { requestId := "f1", errorText := some "net::ERR_FAILED" } 2) ∧
    dlookup
      (on_loading_failed
        (on_request_will_be_sent ({} : NetworkState) { requestId := "f1" } 1)
        { requestId := "f1", errorText := some "net::ERR_FAILED" } 2).active "f1"
      = none :=
  failed_request_lifecycle ({} : NetworkState) { requestId := "f1" }
    { requestId := "f1", errorText := some "net::ERR_FAILED" } 1 2 rfl
    (by norm_num) (List.not_mem_nil _)

/-- Counterexample to C6 as stated: a loading-failed payload whose
`errorText` is present but empty yields an empty failure reason
(the get-with-default on errorText returns the present empty
string). -/
theorem failed_empty_error_text_counterexample :
    (on_loading_failed
        (on_request_will_be_sent ({} : NetworkState) { requestId := "f0" } 1)
        { requestId := "f0", errorText := some "" } 2).completed.map
      (fun t => t.failure_reason) = [some ""] ∧
    (on_loading_failed
        (on_request_will_be_sent ({} : NetworkState) { requestId := "f0" } 1)
        { requestId := "f0", errorText := some "" } 2).completed.map
      (fun t => t.failed) = [true] :=
  ⟨rfl, rfl⟩

/-! ### Helper lemmas for the crash watchdog and listener registration -/

/-- With unique pool keys (a dict), `find?` on the key of a member returns
exactly that member. -/
theorem find_eq_of_nodup_keys (pool : List (String × Nat)) (q : String × Nat)
    (hnd : (pool.map Prod.fst).Nodup) (hq : q ∈ pool) :
    pool.find? (fun p => p.1 == q.1) = some q := by
  induction pool with
  | nil => cases hq
  | cons p rest ih =>
    rw [List.map_cons, List.nodup_cons] at hnd
    rcases List.mem_cons.mp hq with rfl | hmem
    · simp [List.find?_cons]
    · have hne : (p.1 == q.1) = false := by
        rw [beq_eq_false_iff_ne]
        intro hpq
        exact hnd.1 (hpq ▸ List.mem_map_of_mem Prod.fst hmem)
      rw [List.find?_cons, hne]
      exact ih hnd.2 hmem

/-- Once the episode has left the monitoring state, the loop body is the
identity: no probes, no events, no state change. -/
theorem monitor_fold_fixed (inputs : List (Bool × Option (Nat × ProcStatus)))
    (acc : MonitorAcc) (h : acc.state.monitoring ≠ MonState.monitoring) :
    inputs.foldl monitor_step acc = acc := by
  induction inputs with
  | nil => rfl
  | cons inp rest ih =>
    rw [List.foldl_cons]
    have hstep : monitor_step acc inp = acc := by
      unfold monitor_step
      rw [if_neg h]
    rw [hstep]
    exact ih

theorem network_attach_of_mem {st : AttachState} {sid : String}
    (h : sid ∈ st.sessions_with_listeners) : network_attach st sid = st := by
  unfold network_attach
  rw [if_pos h]

theorem network_attach_mem (st : AttachState) (sid : String) :
    sid ∈ (network_attach st sid).sessions_with_listeners := by
  unfold network_attach
  split_ifs with h
  · exact h
  · simp

theorem network_iterate_fixed (sid : String) (m : Nat) (st : AttachState)
    (h : sid ∈ st.sessions_with_listeners) :
    (fun s => network_attach s sid)^[m] st = st := by
  induction m with
  | zero => rfl
  | succ k ih =>
    rw [Function.iterate_succ_apply]
    show (fun s => network_attach s sid)^[k] (network_attach st sid) = st
    rw [network_attach_of_mem h]
    exact ih

theorem crash_attach_of_mem {st : AttachState} {sid : String}
    (h : sid ∈ st.sessions_with_listeners) : crash_attach st sid = st := by
  unfold crash_attach
  rw [if_pos h]

theorem crash_attach_mem (st : AttachState) (sid : String) :
    sid ∈ (crash_attach st sid).sessions_with_listeners := by
  unfold crash_attach
  split_ifs with h
  · exact h
  · simp

theorem crash_iterate_fixed (sid : String) (m : Nat) (st : AttachState)
    (h : sid ∈ st.sessions_with_listeners) :
    (fun s => crash_attach s sid)^[m] st = st := by
  induction m with
  | zero => rfl
  | succ k ih =>
    rw [Function.iterate_succ_apply]
    show (fun s => crash_attach s sid)^[k] (crash_attach st sid) = st
    rw [crash_attach_of_mem h]
    exact ih

/-! ### Claim C7: per-session listener registration is idempotent -/

/-- Claim C7: attaching any number `n ≥ 1` of times to a target that
resolves to the same session ID registers each listener category exactly
once — the four notification handlers of the network watchdog and the crash
crash-notification handler of the crash watchdog — because registration is guarded
by a per-session-ID membership set; later attaches register nothing. -/
theorem attach_registers_each_category_once
    (stN stC : AttachState) (sid : String) (n : Nat) (hn : 1 ≤ n)
    (hN1 : sid ∉ stN.sessions_with_listeners)
    (hN2 : ∀ k, stN.registered.count (sid, k) = 0)
    (hC1 : sid ∉ stC.sessions_with_listeners)
    (hC2 : ∀ k, stC.registered.count (sid, k) = 0) :
    (∀ k ∈ networkKinds,
      (((fun s => network_attach s sid)^[n]) stN).registered.count (sid, k) = 1) ∧
    (((fun s => crash_attach s sid)^[n]) stC).registered.count
      (sid, "Target.targetCrashed") = 1 := by
  obtain ⟨m, rfl⟩ : ∃ m, n = m + 1 := ⟨n - 1, by omega⟩
  have hiterN : ((fun s => network_attach s sid)^[m + 1]) stN
      = network_attach stN sid := by
    rw [Function.iterate_succ_apply]
    exact network_iterate_fixed sid m _ (network_attach_mem stN sid)
  have hiterC : ((fun s => crash_attach s sid)^[m + 1]) stC
      = crash_attach stC sid := by
    rw [Function.iterate_succ_apply]
    exact crash_iterate_fixed sid m _ (crash_attach_mem stC sid)
  constructor
  · intro k hk
    rw [hiterN]
    unfold network_attach
    rw [if_neg hN1]
    show (stN.registered ++ networkKinds.map (fun k => (sid, k))).count (sid, k) = 1
    rw [List.count_append, hN2 k]
    fin_cases hk <;> simp [networkKinds, List.count_cons]
  · rw [hiterC]
    unfold crash_attach
    rw [if_neg hC1]
    show (stC.registered ++ [(sid, "Target.targetCrashed")]).count
      (sid, "Target.targetCrashed") = 1
    rw [List.count_append, hC2 _]
    simp

/-- Witness for C7: two attaches from clean states. -/
theorem attach_registers_each_category_once_witness :
    (∀ k ∈ networkKinds,
      (((fun s => network_attach s "SID1")^[2]) ({} : AttachState)).registered.count
        ("SID1", k) = 1) ∧
    (((fun s => crash_attach s "SID1")^[2]) ({} : AttachState)).registered.count
      ("SID1", "Target.targetCrashed") = 1 :=
  attach_registers_each_category_once ({} : AttachState) ({} : AttachState) "SID1" 2
    (by norm_num) (List.not_mem_nil _) (fun k => rfl)
    (List.not_mem_nil _) (fun k => rfl)

/-! ### Claim C2: probe failure — eviction and focus clearing, but no event -/

/-- Counterexample to C2 as stated: a health check whose probe fails on
the focused target evicts the session and clears the focus pointer but
dispatches no event at all — in particular not one `TargetCrash` event;
that event exists only on the crash-notification listener path. -/
theorem probe_failure_emits_no_event_counterexample :
    (check_browser_health
        { agent_focus := some { target_id := some "T1", session_id := some "S1" }
          pool := [("T1", 7)]
          sessions_with_listeners := []
          monitoring := MonState.monitoring } false none).events.filter
      (fun e => e.error_type == "TargetCrash") = [] ∧
    (check_browser_health
        { agent_focus := some { target_id := some "T1", session_id := some "S1" }
          pool := [("T1", 7)]
          sessions_with_listeners := []
          monitoring := MonState.monitoring } false none).events = [] ∧
    (check_browser_health
        { agent_focus := some { target_id := some "T1", session_id := some "S1" }
          pool := [("T1", 7)]
          sessions_with_listeners := []
          monitoring := MonState.monitoring } false none).state.pool = [] ∧
    (check_browser_health
        { agent_focus := some { target_id := some "T1", session_id := some "S1" }
          pool := [("T1", 7)]
          sessions_with_listeners := []
          monitoring := MonState.monitoring } false none).state.agent_focus
      = some { target_id := none, session_id := some "S1" } :=
  ⟨rfl, rfl, rfl, rfl⟩

/-- Claim C2 (amended): for every health check in which the probe on the
focused session times out or raises, the check evicts the corresponding
session from the session pool, clears the currently-focused target
pointer, and the monitoring loop continues running afterwards; no event
is emitted on this path — the single `TargetCrash` event (whose details
include the target ID) is emitted by the native crash-notification
listener instead. -/
theorem probe_failure_evicts_and_loop_continues
    (st : CrashState) (f : FocusInfo) (tid : String)
    (proc : Option (Nat × ProcStatus))
    (hf : st.agent_focus = some f) (ht : f.target_id = some tid)
    (hm : st.monitoring = MonState.monitoring)
    (hproc : ∀ pid s, proc = some (pid, s) →
      s ≠ ProcStatus.zombie ∧ s ≠ ProcStatus.dead) :
    (check_browser_health st false proc).state.pool
      = st.pool.filter (fun q => !(q.1 == tid)) ∧
    (∀ sess, (tid, sess) ∉ (check_browser_health st false proc).state.pool) ∧
    (check_browser_health st false proc).state.agent_focus
      = some { f with target_id := none } ∧
    (check_browser_health st false proc).events = [] ∧
    (check_browser_health st false proc).raised = false ∧
    (check_browser_health st false proc).state.monitoring = MonState.monitoring ∧
    (∀ inp, (run_monitor (check_browser_health st false proc).state [inp]).probes = 1) ∧
    (∀ (st2 : CrashState) (listed : Bool),
      (on_target_crash_cdp st2 tid listed).events = [targetCrashEvent tid]) := by
  have hr : check_browser_health st false proc
      = { state := { st with
            pool := st.pool.filter (fun q => !(q.1 == tid)),
            agent_focus := some { f with target_id := none } },
          events := [],
          disconnected := ((st.pool.find? (fun q => q.1 == tid)).map
            (fun q => q.2)).toList,
          raised := false } := by
    rcases proc with _ | ⟨pid, s⟩
    · unfold check_browser_health
      simp only [hf, ht, Bool.false_eq_true, if_false]
    · have hs : ¬ (s = ProcStatus.zombie ∨ s = ProcStatus.dead) := by
        have h2 := hproc pid s rfl
        tauto
      unfold check_browser_health
      simp only [hf, ht, Bool.false_eq_true, if_false]
      rw [if_neg hs]
  have hmon : (check_browser_health st false proc).state.monitoring
      = MonState.monitoring := by
    rw [hr]
    exact hm
  refine ⟨by rw [hr], ?_, by rw [hr], by rw [hr], by rw [hr], hmon, ?_, ?_⟩
  · intro sess hmem
    rw [hr] at hmem
    have h2 := (List.mem_filter.mp hmem).2
    simp at h2
  · intro inp
    unfold run_monitor
    rw [List.foldl_cons, List.foldl_nil]
    unfold monitor_step
    rw [if_pos hmon]
  · intro st2 listed
    rfl

/-- Witness for C2 (amended) at a one-session pool with a live process
handle. -/
theorem probe_failure_evicts_and_loop_continues_witness :
    (check_browser_health
        { agent_focus := some { target_id := some "T9", session_id := some "S9" }
          pool := [("T9", 3), ("T8", 4)]
          sessions_with_listeners := []
          monitoring := MonState.monitoring } false
        (some (41, ProcStatus.running))).state.pool
      = [("T9", 3), ("T8", 4)].filter (fun q => !(q.1 == "T9")) ∧
    (∀ sess, ("T9", sess) ∉
      (check_browser_health
        { agent_focus := some { target_id := some "T9", session_id := some "S9" }
          pool := [("T9", 3), ("T8", 4)]
          sessions_with_listeners := []
          monitoring := MonState.monitoring } false
        (some (41, ProcStatus.running))).state.pool) ∧
    (check_browser_health
        { agent_focus := some { target_id := some "T9", session_id := some "S9" }
          pool := [("T9", 3), ("T8", 4)]
          sessions_with_listeners := []
          monitoring := MonState.monitoring } false
        (some (41, ProcStatus.running))).state.agent_focus
      = some { target_id := none, session_id := some "S9" } ∧
    (check_browser_health
        { agent_focus := some { target_id := some "T9", session_id := some "S9" }
          pool := [("T9", 3), ("T8", 4)]
          sessions_with_listeners := []
          monitoring := MonState.monitoring } false
        (some (41, ProcStatus.running))).events = [] ∧
    (check_browser_health
        { agent_focus := some { target_id := some "T9", session_id := some "S9" }
          pool := [("T9", 3), ("T8", 4)]
          sessions_with_listeners := []
          monitoring := MonState.monitoring } false
        (some (41, ProcStatus.running))).raised = false ∧
    (check_browser_health
        { agent_focus := some { target_id := some "T9", session_id := some "S9" }
          pool := [("T9", 3), ("T8", 4)]
          sessions_with_listeners := []
          monitoring := MonState.monitoring } false
        (some (41, ProcStatus.running))).state.monitoring = MonState.monitoring ∧
    (∀ inp, (run_monitor
      (check_browser_health
        { agent_focus := some { target_id := some "T9", session_id := some "S9" }
          pool := [("T9", 3), ("T8", 4)]
          sessions_with_listeners := []
          monitoring := MonState.monitoring } false
        (some (41, ProcStatus.running))).state [inp]).probes = 1) ∧
    (∀ (st2 : CrashState) (listed : Bool),
      (on_target_crash_cdp st2 "T9" listed).events = [targetCrashEvent "T9"]) :=
  probe_failure_evicts_and_loop_continues
    { agent_focus := some { target_id := some "T9", session_id := some "S9" }
      pool := [("T9", 3), ("T8", 4)]
      sessions_with_listeners := []
      monitoring := MonState.monitoring }
    { target_id := some "T9", session_id := some "S9" } "T9"
    (some (41, ProcStatus.running)) rfl rfl rfl
    (fun pid s h => by
      cases h
      refine ⟨?_, ?_⟩
      · intro hc
        cases hc
      · intro hc
        cases hc)

/-! ### Claim C3: process death and the monitoring episode -/

/-- Claim C3, evaluated on the code at the failing input. One health
check that observes a zombie browser process (pid 42) while two sessions
are pooled does disconnect every pooled session, empty the pool and
dispatch one `BrowserProcessCrashed` event whose details carry the
process ID and status — but the in-loop `_stop_monitoring` call swallows
the cancellation of the monitoring task itself, so the episode never
reaches the stopped state: the loop keeps running health probes, and
every further tick that still observes the dead process dispatches
another `BrowserProcessCrashed` event, contradicting the claimed
terminal behaviour (exactly one event, no further probes until
externally restarted). -/
theorem process_crash_not_terminal :
    (check_browser_health
        { agent_focus := none, pool := [("T1", 1), ("T2", 2)],
          sessions_with_listeners := ["S1"], monitoring := MonState.monitoring }
        true (some (42, ProcStatus.zombie))).state.pool = [] ∧
    (check_browser_health
        { agent_focus := none, pool := [("T1", 1), ("T2", 2)],
          sessions_with_listeners := ["S1"], monitoring := MonState.monitoring }
        true (some (42, ProcStatus.zombie))).disconnected = [1, 2] ∧
    (check_browser_health
        { agent_focus := none, pool := [("T1", 1), ("T2", 2)],
          sessions_with_listeners := ["S1"], monitoring := MonState.monitoring }
        true (some (42, ProcStatus.zombie))).events
      = [procCrashEvent 42 ProcStatus.zombie] ∧
    ("pid", toString 42) ∈ (procCrashEvent 42 ProcStatus.zombie).details ∧
    ("status", ProcStatus.str ProcStatus.zombie)
      ∈ (procCrashEvent 42 ProcStatus.zombie).details ∧
    (check_browser_health
        { agent_focus := none, pool := [("T1", 1), ("T2", 2)],
          sessions_with_listeners := ["S1"], monitoring := MonState.monitoring }
        true (some (42, ProcStatus.zombie))).state.monitoring
      = MonState.monitoring ∧
    (run_monitor
        (check_browser_health
          { agent_focus := none, pool := [("T1", 1), ("T2", 2)],
            sessions_with_listeners := ["S1"], monitoring := MonState.monitoring }
          true (some (42, ProcStatus.zombie))).state
        (List.replicate 3 (true, some (42, ProcStatus.zombie)))).probes = 3 ∧
    ((run_monitor
        (check_browser_health
          { agent_focus := none, pool := [("T1", 1), ("T2", 2)],
            sessions_with_listeners := ["S1"], monitoring := MonState.monitoring }
          true (some (42, ProcStatus.zombie))).state
        (List.replicate 3 (true, some (42, ProcStatus.zombie)))).events.filter
      (fun e => e.error_type == "BrowserProcessCrashed")).length = 3 :=
  ⟨rfl, rfl, rfl, by simp [procCrashEvent], by simp [procCrashEvent], rfl, rfl, rfl⟩
